import Mathlib

/-!
A verification development for the graviti Python SDK manager layer.

The Python sources are embedded shallowly:

* pure data (dicts returned by the OpenAPI layer, resource objects) become
  Lean structures;
* the HTTP transport is an explicit environment: each OpenAPI function the
  managers call becomes a function argument from a request record to a
  response (or to `Except PyError`, when a call may raise);
* object mutation becomes explicit state passing: a method that mutates
  `self` returns the new state, a method that may raise returns the
  (possibly unchanged) state together with an `Except` outcome;
* every transport call a method issues is also returned as an explicit
  trace (a list of request records, in issue order), so that statements
  such as "exactly one request, with exactly these fields" can be proved.

Components of the repository that are referenced but whose files are not
among the provided sources (`graviti/manager/lazy.py`, that is
`LazyPagingList`, and the managers for branches and commits) are modelled
from the specification; each such definition says so in its doc comment.
-/

namespace Graviti

/-- The exception values the embedded methods distinguish:
`ResourceNotExistError` (from `graviti/exception.py`, carrying the resource
kind and the identification, as raised in `DatasetManager.get`) and every
other transport-layer error, collapsed into `otherError`.  `Dataset.checkout`
catches exactly `ResourceNotExistError`, so this is the distinction the
embedded control flow needs. -/
inductive PyError where
  | resourceNotExist (resource : String) (identification : String)
  | otherError (message : String)
deriving DecidableEq, Repr

/-- The branch value returned by `BranchManager.get`; `Dataset.checkout`
reads its `name` and `commit_id` fields.  (`graviti/manager/branch.py` is
not among the provided sources; the two fields used by `checkout` are taken
from the call sites in `graviti/manager/dataset.py`.) -/
structure Branch where
  name : String
  commit_id : String
deriving DecidableEq, Repr

/-- The commit value returned by `CommitManager.get`; `Dataset.checkout`
reads its `commit_id` field. -/
structure Commit where
  commit_id : String
deriving DecidableEq, Repr

/-- The state of a `Dataset` object (`graviti/manager/dataset.py`, class
`Dataset`): the attributes set by `__init__`, plus `branch`
(`Optional[str]`) and the optional cached sheets attribute `_data`
inherited from `Sheets`, modelled as `Option` (`none` = the attribute is
absent, as after construction or after `delattr`).  The sheets payload
itself is abstracted to a `String`. -/
structure Dataset where
  access_key : String
  url : String
  _dataset_id : String
  name : String
  «alias» : String
  default_branch : String
  commit_id : String
  created_at : String
  updated_at : String
  owner : String
  is_public : Bool
  config : String
  branch : Option String
  _data : Option String
deriving DecidableEq, Repr

/-- The lookup environment for `Dataset.checkout`: `self.branches.get` and
`self.commits.get`.  The managers behind them are transport wrappers whose
files are not part of the embedded core, so they are abstracted as
functions from the revision string to a result that either holds the
resource or raises. -/
structure CheckoutEnv where
  branchesGet : String → Except PyError Branch
  commitsGet : String → Except PyError Commit

/-- One revision-lookup call issued by `Dataset.checkout`, recorded in the
order the Python code issues it. -/
inductive RevisionCall where
  | branchGet (revision : String)
  | commitGet (revision : String)
deriving DecidableEq, Repr

/-- `Dataset.checkout(revision)` (graviti/manager/dataset.py lines 173-190).

Python control flow, embedded statement by statement:
`try: branch = self.branches.get(revision); self.branch = branch.name;
self.commit_id = branch.commit_id` — the `except ResourceNotExistError:`
clause runs `self.commit_id = self.commits.get(revision).commit_id;
self.branch = None`; any other exception from `branches.get`, and any
exception from `commits.get`, propagates with `self` untouched (the
assignments sit after the raising calls).  After the `try` statement,
`if hasattr(self, "_data"): delattr(self, "_data")`.

The result is the dataset state after the call, the normal/raised outcome,
and the trace of lookup calls issued. -/
def Dataset.checkout (env : CheckoutEnv) (self : Dataset) (revision : String) :
    Dataset × Except PyError Unit × List RevisionCall :=
  match env.branchesGet revision with
  | .ok branch =>
      let afterTry := { self with branch := some branch.name, commit_id := branch.commit_id }
      ({ afterTry with _data := none }, .ok (), [.branchGet revision])
  | .error (.resourceNotExist _ _) =>
      match env.commitsGet revision with
      | .ok commit =>
          let afterTry := { self with commit_id := commit.commit_id, branch := none }
          ({ afterTry with _data := none }, .ok (), [.branchGet revision, .commitGet revision])
      | .error e => (self, .error e, [.branchGet revision, .commitGet revision])
  | .error (.otherError m) => (self, .error (.otherError m), [.branchGet revision])

/-- The python dict handed to `Dataset.from_pyobj` (the keys listed in its
docstring, graviti/manager/dataset.py lines 110-123).  The dict key `"id"`
is bound to the attribute `_dataset_id` by `attr(key="id")`. -/
structure DatasetPyobj where
  access_key : String
  url : String
  id : String
  name : String
  «alias» : String
  default_branch : String
  commit_id : String
  created_at : String
  updated_at : String
  owner : String
  is_public : Bool
  config : String
deriving DecidableEq, Repr

/-- `Dataset.from_pyobj(contents)` (graviti/manager/dataset.py lines
103-131): `common_loads` binds each declared attribute from the dict (with
`"id"` going to `_dataset_id`), then `dataset.branch = dataset.default_branch`.
A freshly loaded dataset has no `_data` attribute. -/
def Dataset.from_pyobj (contents : DatasetPyobj) : Dataset :=
  { access_key := contents.access_key
    url := contents.url
    _dataset_id := contents.id
    name := contents.name
    «alias» := contents.«alias»
    default_branch := contents.default_branch
    commit_id := contents.commit_id
    created_at := contents.created_at
    updated_at := contents.updated_at
    owner := contents.owner
    is_public := contents.is_public
    config := contents.config
    branch := some contents.default_branch
    _data := none }

/-- One raw dataset item as it appears in the `"datasets"` list of the
`list_datasets` response, before `DatasetManager._generate` runs
`item.update(arguments)`: all the keys `Dataset.from_pyobj` needs except
`access_key` and `url`, which the update merges in. -/
structure RawDataset where
  id : String
  name : String
  «alias» : String
  default_branch : String
  commit_id : String
  created_at : String
  updated_at : String
  owner : String
  is_public : Bool
  config : String
deriving DecidableEq, Repr

/-- `item.update(arguments)` in `DatasetManager._generate`: merge the
manager's `access_key` and `url` into the raw item dict. -/
def RawDataset.update (item : RawDataset) (access_key url : String) : DatasetPyobj :=
  { access_key := access_key
    url := url
    id := item.id
    name := item.name
    «alias» := item.«alias»
    default_branch := item.default_branch
    commit_id := item.commit_id
    created_at := item.created_at
    updated_at := item.updated_at
    owner := item.owner
    is_public := item.is_public
    config := item.config }

/-- The arguments `DatasetManager._generate` passes to `list_datasets`:
`access_key` and `url` from the manager plus the given `limit` and
`offset`. -/
structure ListDatasetsRequest where
  access_key : String
  url : String
  limit : Nat
  offset : Nat
deriving DecidableEq, Repr

/-- The part of the `list_datasets` response `_generate` reads: the
`"datasets"` item list and `"totalCount"`. -/
structure ListDatasetsResponse where
  datasets : List RawDataset
  totalCount : Nat
deriving DecidableEq, Repr

/-- The state of a `DatasetManager` (graviti/manager/dataset.py lines
193-205): the three values stored by `__init__`. -/
structure DatasetManager where
  access_key : String
  url : String
  owner : String
deriving DecidableEq, Repr

/-- `DatasetManager._generate(offset, limit)` (graviti/manager/dataset.py
lines 207-215), with the `list_datasets` transport passed in as `env`.
The generator's yields become the first component (one
`Dataset.from_pyobj(item.update(arguments))` per raw item, in response
order), its `return response["totalCount"]` becomes the second, and the
single transport request it issues is the trace. -/
def DatasetManager._generate (env : ListDatasetsRequest → ListDatasetsResponse)
    (self : DatasetManager) (offset limit : Nat) :
    List Dataset × Nat × List ListDatasetsRequest :=
  let req : ListDatasetsRequest :=
    { access_key := self.access_key, url := self.url, limit := limit, offset := offset }
  let response := env req
  (response.datasets.map (fun item => Dataset.from_pyobj (item.update self.access_key self.url)),
   response.totalCount, [req])

/-- The arguments `DatasetManager.get` passes to `get_dataset`. -/
structure GetDatasetRequest where
  access_key : String
  url : String
  owner : String
  dataset : String
deriving DecidableEq, Repr

/-- The `get_dataset` response body as `DatasetManager.get` consumes it:
after `response.update(arguments, name=dataset)` the keys `access_key`,
`url`, `owner` and `name` are overwritten from the manager and the
argument, so only the remaining keys of the body matter. -/
structure GetDatasetResponse where
  id : String
  «alias» : String
  default_branch : String
  commit_id : String
  created_at : String
  updated_at : String
  is_public : Bool
  config : String
deriving DecidableEq, Repr

/-- `response.update(arguments, name=dataset)` in `DatasetManager.get`:
build the dict `Dataset.from_pyobj` receives. -/
def GetDatasetResponse.updateWith (response : GetDatasetResponse)
    (access_key url owner name : String) : DatasetPyobj :=
  { access_key := access_key
    url := url
    id := response.id
    name := name
    «alias» := response.«alias»
    default_branch := response.default_branch
    commit_id := response.commit_id
    created_at := response.created_at
    updated_at := response.updated_at
    owner := owner
    is_public := response.is_public
    config := response.config }

/-- `DatasetManager.get(dataset)` (graviti/manager/dataset.py lines
249-273).  `if not dataset:` — a Python string is falsy exactly when it is
empty — raises `ResourceNotExistError(resource="dataset",
identification=dataset)` locally, with no transport call (empty trace).
Otherwise exactly one `get_dataset` call is issued; its error, if any,
propagates, and on success the dataset is built by
`Dataset.from_pyobj(response.update(arguments, name=dataset))`. -/
def DatasetManager.get (env : GetDatasetRequest → Except PyError GetDatasetResponse)
    (self : DatasetManager) (dataset : String) :
    Except PyError Dataset × List GetDatasetRequest :=
  if dataset = "" then
    (.error (.resourceNotExist "dataset" dataset), [])
  else
    let req : GetDatasetRequest :=
      { access_key := self.access_key, url := self.url, owner := self.owner, dataset := dataset }
    match env req with
    | .ok response =>
        (.ok (Dataset.from_pyobj
          (response.updateWith self.access_key self.url self.owner dataset)), [req])
    | .error e => (.error e, [req])

/-- The arguments `DatasetManager.delete` passes to `delete_dataset`
(graviti/manager/dataset.py line 291): positionally `access_key`, `url`,
`owner`, `name`. -/
structure DeleteDatasetRequest where
  access_key : String
  url : String
  owner : String
  name : String
deriving DecidableEq, Repr

/-- `DatasetManager.delete(name)` (graviti/manager/dataset.py lines
284-291): a single `delete_dataset(self.access_key, self.url, self.owner,
name)` call; its outcome, error or not, is the method's outcome,
unchanged. -/
def DatasetManager.delete (env : DeleteDatasetRequest → Except PyError Unit)
    (self : DatasetManager) (name : String) :
    Except PyError Unit × List DeleteDatasetRequest :=
  let req : DeleteDatasetRequest :=
    { access_key := self.access_key, url := self.url, owner := self.owner, name := name }
  (env req, [req])

/-- The state of a `Draft` object (graviti/manager/draft.py lines 35-58):
the attributes set by `__init__`, including the back-reference `_dataset`
to the owning `Dataset`, plus the optional cached `_data` attribute
inherited from `Sheets` (abstracted to a `String`, `none` = absent). -/
structure Draft where
  _dataset : Dataset
  number : Nat
  title : String
  branch : String
  state : String
  parent_commit_id : String
  creator : String
  created_at : String
  updated_at : String
  description : String
  _data : Option String
deriving DecidableEq, Repr

/-- One raw draft item as it appears in the `"drafts"` list of the
`list_drafts` response, unpacked into `Draft(self._dataset, **item)`.  The
`description` key may be absent, in which case `Draft.__init__`'s default
`""` applies. -/
structure RawDraft where
  number : Nat
  title : String
  branch : String
  state : String
  parent_commit_id : String
  creator : String
  created_at : String
  updated_at : String
  description : Option String
deriving DecidableEq, Repr

/-- `Draft(dataset, **item)`: construct a draft from a raw response item
and the owning dataset, applying the `description=""` default; a freshly
constructed draft has no `_data` attribute. -/
def Draft.ofRaw (dataset : Dataset) (item : RawDraft) : Draft :=
  { _dataset := dataset
    number := item.number
    title := item.title
    branch := item.branch
    state := item.state
    parent_commit_id := item.parent_commit_id
    creator := item.creator
    created_at := item.created_at
    updated_at := item.updated_at
    description := item.description.getD ""
    _data := none }

/-- The arguments passed to `update_draft`, in the order of the call sites
in graviti/manager/draft.py: positionally the dataset's `access_key`,
`url`, `owner`, `name`, then the keyword arguments.  `Draft.edit` passes
`title` and `description` (possibly `None`) and no `state`; `Draft.close`
passes only `state="CLOSED"`. -/
structure UpdateDraftRequest where
  access_key : String
  url : String
  owner : String
  dataset : String
  draft_number : Nat
  title : Option String
  description : Option String
  state : Option String
deriving DecidableEq, Repr

/-- `Draft.edit(title, description)` (graviti/manager/draft.py lines
60-81): one `update_draft` call with the dataset context, the draft
number, and the two optional arguments; if it raises, the error propagates
with the draft unchanged (the assignments follow the call); on success
exactly the non-`None` arguments are written to the local fields. -/
def Draft.edit (env : UpdateDraftRequest → Except PyError Unit) (self : Draft)
    (title description : Option String) :
    Draft × Except PyError Unit × List UpdateDraftRequest :=
  let req : UpdateDraftRequest :=
    { access_key := self._dataset.access_key
      url := self._dataset.url
      owner := self._dataset.owner
      dataset := self._dataset.name
      draft_number := self.number
      title := title
      description := description
      state := none }
  match env req with
  | .ok _ =>
      let afterTitle := match title with
        | some t => { self with title := t }
        | none => self
      let afterDescription := match description with
        | some d => { afterTitle with description := d }
        | none => afterTitle
      (afterDescription, .ok (), [req])
  | .error e => (self, .error e, [req])

/-- `Draft.close()` (graviti/manager/draft.py lines 83-94): one
`update_draft` call with `state="CLOSED"` and no `title`/`description`;
on success `self.state = "CLOSED"`, nothing else is touched; on error the
draft is unchanged. -/
def Draft.close (env : UpdateDraftRequest → Except PyError Unit) (self : Draft) :
    Draft × Except PyError Unit × List UpdateDraftRequest :=
  let req : UpdateDraftRequest :=
    { access_key := self._dataset.access_key
      url := self._dataset.url
      owner := self._dataset.owner
      dataset := self._dataset.name
      draft_number := self.number
      title := none
      description := none
      state := some "CLOSED" }
  match env req with
  | .ok _ => ({ self with state := "CLOSED" }, .ok (), [req])
  | .error e => (self, .error e, [req])

/-- The arguments `DraftManager._generate` passes to `list_drafts`
(graviti/manager/draft.py lines 132-141), in call-site order. -/
structure ListDraftsRequest where
  access_key : String
  url : String
  owner : String
  dataset : String
  state : Option String
  branch : Option String
  offset : Nat
  limit : Nat
deriving DecidableEq, Repr

/-- The part of the `list_drafts` response `_generate` reads: the
`"drafts"` item list and `"totalCount"`. -/
structure ListDraftsResponse where
  drafts : List RawDraft
  totalCount : Nat
deriving DecidableEq, Repr

/-- The state of a `DraftManager` (graviti/manager/draft.py lines
114-123): the owning dataset stored by `__init__`. -/
structure DraftManager where
  _dataset : Dataset
deriving DecidableEq, Repr

/-- `DraftManager._generate(state, branch, offset, limit)`
(graviti/manager/draft.py lines 125-146), with the `list_drafts` transport
passed in as `env`: one paged request built from the owning dataset's
context plus the four arguments; one `Draft(self._dataset, **item)` per
raw item, in response order; the generator's `return
response["totalCount"]` becomes the second component. -/
def DraftManager._generate (env : ListDraftsRequest → ListDraftsResponse)
    (self : DraftManager) (state branch : Option String) (offset limit : Nat) :
    List Draft × Nat × List ListDraftsRequest :=
  let req : ListDraftsRequest :=
    { access_key := self._dataset.access_key
      url := self._dataset.url
      owner := self._dataset.owner
      dataset := self._dataset.name
      state := state
      branch := branch
      offset := offset
      limit := limit }
  let response := env req
  (response.drafts.map (Draft.ofRaw self._dataset), response.totalCount, [req])

/-- Modelled from the spec: the container defined in
`graviti/manager/lazy.py` is not among the provided source files.
Following spec section 3, a `LazyPagingList` holds the page-fetcher
closure (here the traced fetcher built by a manager's `list()`, returning
the yielded items, the total count, and the requests it issued), the fixed
page size `limit`, the cache of slots (each either unfetched or holding an
item), and the optional `total_count`, with a fresh instance starting from
an empty cache and unknown total. -/
structure LazyPagingList (α : Type) (ρ : Type) where
  fetcher : Nat → Nat → List α × Nat × List ρ
  limit : Nat
  cache : List (Option α)
  total_count : Option Nat

/-- `DatasetManager.list()` (graviti/manager/dataset.py lines 275-282):
`LazyPagingList(self._generate, 128)` — the fetcher is the manager's own
`_generate`, the page size is 128, and the instance is freshly
constructed. -/
def DatasetManager.list (env : ListDatasetsRequest → ListDatasetsResponse)
    (self : DatasetManager) : LazyPagingList Dataset ListDatasetsRequest :=
  { fetcher := fun offset limit => DatasetManager._generate env self offset limit
    limit := 128
    cache := []
    total_count := none }

/-- `DraftManager.list(state, branch)` (graviti/manager/draft.py lines
192-209): `LazyPagingList(lambda offset, limit: self._generate(state,
branch, offset, limit), 128)` — the lambda captures the manager and the
two filters and forwards `(offset, limit)`. -/
def DraftManager.list (env : ListDraftsRequest → ListDraftsResponse)
    (self : DraftManager) (state branch : Option String) :
    LazyPagingList Draft ListDraftsRequest :=
  { fetcher := fun offset limit => DraftManager._generate env self state branch offset limit
    limit := 128
    cache := []
    total_count := none }

/-- The arguments `DraftManager.create` passes to `create_draft`
(graviti/manager/draft.py lines 162-170). -/
structure CreateDraftRequest where
  access_key : String
  url : String
  owner : String
  dataset : String
  title : String
  branch : Option String
  description : Option String
deriving DecidableEq, Repr

/-- `DraftManager.create(title, description, branch)`
(graviti/manager/draft.py lines 148-171): one `create_draft` call, then
`Draft(self._dataset, **response)`. -/
def DraftManager.create (env : CreateDraftRequest → Except PyError RawDraft)
    (self : DraftManager) (title : String) (description branch : Option String) :
    Except PyError Draft × List CreateDraftRequest :=
  let req : CreateDraftRequest :=
    { access_key := self._dataset.access_key
      url := self._dataset.url
      owner := self._dataset.owner
      dataset := self._dataset.name
      title := title
      branch := branch
      description := description }
  match env req with
  | .ok response => (.ok (Draft.ofRaw self._dataset response), [req])
  | .error e => (.error e, [req])

/-- The arguments `DraftManager.get` passes to `get_draft`
(graviti/manager/draft.py lines 183-189). -/
structure GetDraftRequest where
  access_key : String
  url : String
  owner : String
  dataset : String
  draft_number : Nat
deriving DecidableEq, Repr

/-- `DraftManager.get(draft_number)` (graviti/manager/draft.py lines
173-190): one `get_draft` call, then `Draft(self._dataset, **response)`. -/
def DraftManager.get (env : GetDraftRequest → Except PyError RawDraft)
    (self : DraftManager) (draft_number : Nat) :
    Except PyError Draft × List GetDraftRequest :=
  let req : GetDraftRequest :=
    { access_key := self._dataset.access_key
      url := self._dataset.url
      owner := self._dataset.owner
      dataset := self._dataset.name
      draft_number := draft_number }
  match env req with
  | .ok response => (.ok (Draft.ofRaw self._dataset response), [req])
  | .error e => (.error e, [req])

/-- The four operations of the uniform manager contract named in the
spec. -/
inductive ManagerMethod where
  | create
  | get
  | list
  | delete
deriving DecidableEq, Repr

/-- The public methods defined in the class body of `DatasetManager`
(graviti/manager/dataset.py lines 193-291): `create`, `get`, `list`,
`delete` (besides `__init__` and the private `_generate`). -/
def DatasetManager.methods : List ManagerMethod :=
  [.create, .get, .list, .delete]

/-- The public methods defined in the class body of `DraftManager`
(graviti/manager/draft.py lines 114-209): `create`, `get`, `list`
(besides `__init__` and the private `_generate`); the class defines no
`delete` method. -/
def DraftManager.methods : List ManagerMethod :=
  [.create, .get, .list]

/-- Modelled from the spec: `LazyPagingList.iterate` lives in
`graviti/manager/lazy.py`, which is not among the provided source files;
this loop follows spec sections 4.1 and 4.2.  Starting from page offset
`offset` (0 at the top-level call, and equal to the number of items
already yielded, since the loop only continues past full pages), each
round fetches one page of size `limit`, yields its items truncated so that
no more than `total_count` items are produced in all, and stops when the
page held fewer than `limit` items or when `total_count` items have been
yielded, whichever comes first; otherwise it continues at `offset +
limit`.  `fuel` makes the recursion structural; the result is the yielded
items together with the list of page offsets requested, in request
order. -/
def lazyIterate {α : Type} (fetcher : Nat → Nat → List α × Nat) (limit : Nat) :
    Nat → Nat → List α × List Nat
  | 0, _ => ([], [])
  | fuel + 1, offset =>
    let page := fetcher offset limit
    let taken := min page.1.length (page.2 - offset)
    if page.1.length < limit ∨ page.2 ≤ offset + taken then
      (page.1.take taken, [offset])
    else
      let rest := lazyIterate fetcher limit fuel (offset + limit)
      (page.1.take taken ++ rest.1, offset :: rest.2)

/-- The stop condition of one `lazyIterate` round at page offset `o`: the
fetched page holds fewer than `limit` items, or yielding its (truncated)
items reaches the reported `total_count`. -/
def pageStops {α : Type} (fetcher : Nat → Nat → List α × Nat) (limit o : Nat) : Prop :=
  (fetcher o limit).1.length < limit ∨
    (fetcher o limit).2 ≤ o + min (fetcher o limit).1.length ((fetcher o limit).2 - o)

instance {α : Type} (fetcher : Nat → Nat → List α × Nat) (limit o : Nat) :
    Decidable (pageStops fetcher limit o) := by
  unfold pageStops
  infer_instance

/-- An authenticated OpenAPI request as the `graviti/openapi` helpers
build it: the HTTP method and access key passed to `open_api_do`, and the
URL kept as the pair of the base `url` argument and the path string the
helper formats (the source combines them with `urljoin(url, path)`). -/
structure OpenApiRequest where
  method : String
  access_key : String
  url : String
  path : String
deriving DecidableEq, Repr

/-- `get_branch(access_key, url, owner, dataset, *, branch)`
(graviti/openapi/branch.py lines 116-156): a GET on
`v2/datasets/{owner}/{dataset}/branches/{branch}`.  The Lean parameters
are declared in the source's positional order. -/
def get_branch (access_key url owner dataset : String) (branch : String) : OpenApiRequest :=
  { method := "GET"
    access_key := access_key
    url := url
    path := "v2/datasets/" ++ owner ++ "/" ++ dataset ++ "/branches/" ++ branch }

/-- `get_tag(access_key, url, dataset, owner, *, tag)`
(graviti/openapi/tag.py lines 110-143): a GET on
`v2/datasets/{owner}/{dataset}/tags/{tag}`.  The Lean parameters are
declared in the source's positional order — note the source declares
`dataset` third and `owner` fourth, unlike `get_branch` and unlike its own
docstring, which documents `owner` before `dataset`. -/
def get_tag (access_key url dataset owner : String) (tag : String) : OpenApiRequest :=
  { method := "GET"
    access_key := access_key
    url := url
    path := "v2/datasets/" ++ owner ++ "/" ++ dataset ++ "/tags/" ++ tag }

/-! Concrete fixtures used by the witness theorems. -/

/-- A concrete dataset state. -/
def exDataset : Dataset :=
  { access_key := "ACCESSKEY"
    url := "https://api.graviti.com/"
    _dataset_id := "id-1"
    name := "MNIST"
    «alias» := "mnist"
    default_branch := "main"
    commit_id := "c0"
    created_at := "2022-01-01"
    updated_at := "2022-01-02"
    owner := "czhual"
    is_public := false
    config := "cfg"
    branch := some "main"
    _data := some "sheets" }

/-- A concrete checkout environment: `"main"` is a branch, `"d4"` is a
commit id, everything else is not found. -/
def exCheckoutEnv : CheckoutEnv :=
  { branchesGet := fun r =>
      if r = "main" then .ok { name := "main", commit_id := "c1" }
      else .error (.resourceNotExist "branch" r)
    commitsGet := fun r =>
      if r = "d4" then .ok { commit_id := "d4" }
      else .error (.resourceNotExist "commit" r) }

/-- C1: `Dataset.checkout` resolves a revision branch-first.  If
`branches.get(revision)` succeeds, the dataset's `branch` becomes the
branch's name and `commit_id` the branch's commit id, and only that one
lookup is issued.  Only when the branch lookup raises
`ResourceNotExistError` does the method fall back to
`commits.get(revision)` — the trace is then exactly branch lookup first,
commit lookup second — and on the fallback's success `commit_id` becomes
the commit's id and `branch` becomes `None`.  A branch-lookup failure
other than not-found does not trigger the fallback. -/
theorem checkout_branch_first (env : CheckoutEnv) (self : Dataset) (revision : String) :
    (∀ b : Branch, env.branchesGet revision = .ok b →
      Dataset.checkout env self revision =
        ({ self with branch := some b.name, commit_id := b.commit_id, _data := none },
         .ok (), [.branchGet revision])) ∧
    (∀ r i, env.branchesGet revision = .error (.resourceNotExist r i) →
      ((Dataset.checkout env self revision).2.2 =
        [.branchGet revision, .commitGet revision]) ∧
      (∀ c : Commit, env.commitsGet revision = .ok c →
        Dataset.checkout env self revision =
          ({ self with commit_id := c.commit_id, branch := none, _data := none },
           .ok (), [.branchGet revision, .commitGet revision]))) ∧
    (∀ m, env.branchesGet revision = .error (.otherError m) →
      Dataset.checkout env self revision =
        (self, .error (.otherError m), [.branchGet revision])) := by
  refine ⟨fun b hb => ?_, fun r i hb => ⟨?_, fun c hc => ?_⟩, fun m hb => ?_⟩
  · simp only [Dataset.checkout, hb]
  · rcases hc : env.commitsGet revision with e | c <;>
      simp only [Dataset.checkout, hb, hc]
  · simp only [Dataset.checkout, hb, hc]
  · simp only [Dataset.checkout, hb]

/-- Witness for C1: checking out the branch `"main"` in the concrete
environment takes the branch path with a single branch lookup. -/
theorem checkout_branch_first_witness :
    Dataset.checkout exCheckoutEnv exDataset "main" =
      ({ exDataset with branch := some "main", commit_id := "c1", _data := none },
       .ok (), [.branchGet "main"]) :=
  (checkout_branch_first exCheckoutEnv exDataset "main").1
    { name := "main", commit_id := "c1" } (by rfl)

/-- C10: when both lookups fail — `branches.get(revision)` raises
`ResourceNotExistError` and the fallback `commits.get(revision)` then
raises — `Dataset.checkout` propagates the second exception to the caller
and the dataset state, `branch`, `commit_id` and the cached `_data`
included, is exactly what it was before the call. -/
theorem checkout_double_failure_preserves_state (env : CheckoutEnv) (self : Dataset)
    (revision r i : String) (e : PyError)
    (hb : env.branchesGet revision = .error (.resourceNotExist r i))
    (hc : env.commitsGet revision = .error e) :
    Dataset.checkout env self revision =
      (self, .error e, [.branchGet revision, .commitGet revision]) := by
  simp only [Dataset.checkout, hb, hc]

/-- Witness for C10: checking out the unknown revision `"nope"` fails both
lookups, raises the commit lookup's not-found error, and leaves the
concrete dataset state untouched. -/
theorem checkout_double_failure_witness :
    Dataset.checkout exCheckoutEnv exDataset "nope" =
      (exDataset, .error (.resourceNotExist "commit" "nope"),
       [.branchGet "nope", .commitGet "nope"]) :=
  checkout_double_failure_preserves_state exCheckoutEnv exDataset "nope" "branch" "nope"
    (.resourceNotExist "commit" "nope") (by rfl) (by rfl)

/-- A concrete raw dataset item. -/
def exRawDataset : RawDataset :=
  { id := "id-1"
    name := "MNIST"
    «alias» := "mnist"
    default_branch := "main"
    commit_id := "c1"
    created_at := "2022-01-01"
    updated_at := "2022-01-02"
    owner := "czhual"
    is_public := false
    config := "cfg" }

/-- A concrete `list_datasets` transport: one item, total count 7. -/
def exListDatasetsEnv : ListDatasetsRequest → ListDatasetsResponse :=
  fun _ => { datasets := [exRawDataset], totalCount := 7 }

/-- A concrete dataset manager. -/
def exManager : DatasetManager :=
  { access_key := "ACCESSKEY", url := "https://api.graviti.com/", owner := "czhual" }

/-- A concrete raw draft item, with the optional `description` absent. -/
def exRawDraft : RawDraft :=
  { number := 3
    title := "draft-3"
    branch := "main"
    state := "OPEN"
    parent_commit_id := "c0"
    creator := "czhual"
    created_at := "2022-01-03"
    updated_at := "2022-01-04"
    description := none }

/-- A concrete `list_drafts` transport: one item, total count 4. -/
def exListDraftsEnv : ListDraftsRequest → ListDraftsResponse :=
  fun _ => { drafts := [exRawDraft], totalCount := 4 }

/-- A concrete draft manager owned by `exDataset`. -/
def exDraftManager : DraftManager := { _dataset := exDataset }

/-- C2: the page-producer generators.  For every transport response,
`DatasetManager._generate(offset, limit)` yields exactly one
`Dataset.from_pyobj(item.update(arguments))` per raw item of the
response's `"datasets"` list (same length, and the i-th yield is built
from the i-th raw item, so server order is preserved) and returns the
response's `"totalCount"`; `DraftManager._generate(state, branch, offset,
limit)` does the same over the `"drafts"` list with
`Draft(self._dataset, **item)`. -/
theorem generate_yields_then_returns_count
    (envD : ListDatasetsRequest → ListDatasetsResponse) (mgr : DatasetManager)
    (envR : ListDraftsRequest → ListDraftsResponse) (dmgr : DraftManager)
    (state branch : Option String) (offset limit : Nat) :
    ((DatasetManager._generate envD mgr offset limit).1.length =
      (envD { access_key := mgr.access_key, url := mgr.url,
              limit := limit, offset := offset }).datasets.length) ∧
    (∀ (i : Nat) (raw : RawDataset),
      (envD { access_key := mgr.access_key, url := mgr.url,
              limit := limit, offset := offset }).datasets[i]? = some raw →
      (DatasetManager._generate envD mgr offset limit).1[i]? =
        some (Dataset.from_pyobj (raw.update mgr.access_key mgr.url))) ∧
    ((DatasetManager._generate envD mgr offset limit).2.1 =
      (envD { access_key := mgr.access_key, url := mgr.url,
              limit := limit, offset := offset }).totalCount) ∧
    ((DraftManager._generate envR dmgr state branch offset limit).1.length =
      (envR { access_key := dmgr._dataset.access_key, url := dmgr._dataset.url,
              owner := dmgr._dataset.owner, dataset := dmgr._dataset.name,
              state := state, branch := branch,
              offset := offset, limit := limit }).drafts.length) ∧
    (∀ (i : Nat) (raw : RawDraft),
      (envR { access_key := dmgr._dataset.access_key, url := dmgr._dataset.url,
              owner := dmgr._dataset.owner, dataset := dmgr._dataset.name,
              state := state, branch := branch,
              offset := offset, limit := limit }).drafts[i]? = some raw →
      (DraftManager._generate envR dmgr state branch offset limit).1[i]? =
        some (Draft.ofRaw dmgr._dataset raw)) ∧
    ((DraftManager._generate envR dmgr state branch offset limit).2.1 =
      (envR { access_key := dmgr._dataset.access_key, url := dmgr._dataset.url,
              owner := dmgr._dataset.owner, dataset := dmgr._dataset.name,
              state := state, branch := branch,
              offset := offset, limit := limit }).totalCount) := by
  refine ⟨?_, fun i raw h => ?_, rfl, ?_, fun i raw h => ?_, rfl⟩
  · simp [DatasetManager._generate]
  · simp [DatasetManager._generate, List.getElem?_map, h]
  · simp [DraftManager._generate]
  · simp [DraftManager._generate, List.getElem?_map, h]

/-- Witness for C2: on the concrete one-item transports, the first yield
of each generator is the resource built from the first raw item, and the
generators return the transports' total counts (7 and 4), not the page
sizes. -/
theorem generate_yields_then_returns_count_witness :
    ((DatasetManager._generate exListDatasetsEnv exManager 0 128).1[0]? =
      some (Dataset.from_pyobj
        (exRawDataset.update exManager.access_key exManager.url))) ∧
    ((DraftManager._generate exListDraftsEnv exDraftManager none none 0 128).1[0]? =
      some (Draft.ofRaw exDraftManager._dataset exRawDraft)) := by
  have h := generate_yields_then_returns_count exListDatasetsEnv exManager
    exListDraftsEnv exDraftManager none none 0 128
  exact ⟨h.2.1 0 exRawDataset (by rfl), h.2.2.2.2.1 0 exRawDraft (by rfl)⟩

/-- C3: `DraftManager.list(state, branch)` returns a `LazyPagingList`
whose fetcher closure, invoked later with `(offset, limit)`, runs
`_generate` with exactly the captured `state`, `branch` and owning-dataset
context plus the given `offset` and `limit` — its single transport request
carries exactly those fields — and the returned instance is freshly
constructed: page size 128, empty cache, unknown total, so it shares no
cache with any instance returned by an earlier `list()` call;
`DatasetManager.list()` likewise wraps its own `_generate` in a fresh
instance. -/
theorem list_builds_fresh_capturing_closure
    (envD : ListDatasetsRequest → ListDatasetsResponse) (mgr : DatasetManager)
    (envR : ListDraftsRequest → ListDraftsResponse) (dmgr : DraftManager)
    (state branch : Option String) (offset limit : Nat) :
    ((DraftManager.list envR dmgr state branch).fetcher offset limit =
      DraftManager._generate envR dmgr state branch offset limit) ∧
    (((DraftManager.list envR dmgr state branch).fetcher offset limit).2.2 =
      [{ access_key := dmgr._dataset.access_key, url := dmgr._dataset.url,
         owner := dmgr._dataset.owner, dataset := dmgr._dataset.name,
         state := state, branch := branch, offset := offset, limit := limit }]) ∧
    ((DraftManager.list envR dmgr state branch).limit = 128) ∧
    ((DraftManager.list envR dmgr state branch).cache = []) ∧
    ((DraftManager.list envR dmgr state branch).total_count = none) ∧
    ((DatasetManager.list envD mgr).fetcher offset limit =
      DatasetManager._generate envD mgr offset limit) ∧
    ((DatasetManager.list envD mgr).limit = 128) ∧
    ((DatasetManager.list envD mgr).cache = []) ∧
    ((DatasetManager.list envD mgr).total_count = none) :=
  ⟨rfl, rfl, rfl, rfl, rfl, rfl, rfl, rfl, rfl⟩

/-- C4 counterexample: the claim that every resource-family manager, and
`DraftManager` in particular, exposes all four operations of the uniform
contract is false — the class body of `DraftManager`
(graviti/manager/draft.py lines 114-209) defines no `delete` method. -/
theorem draftManager_has_no_delete :
    ManagerMethod.delete ∉ DraftManager.methods := by decide

/-- C4 (amended): `DatasetManager` exposes the full uniform contract
`create`, `get`, `list`, `delete`; `DraftManager` exposes `create`, `get`
and `list` but no `delete`. -/
theorem manager_contract_methods :
    (∀ m : ManagerMethod, m ∈ DatasetManager.methods) ∧
    ManagerMethod.create ∈ DraftManager.methods ∧
    ManagerMethod.get ∈ DraftManager.methods ∧
    ManagerMethod.list ∈ DraftManager.methods :=
  ⟨fun m => by cases m <;> decide, by decide, by decide, by decide⟩

/-- A concrete `get_dataset` transport: only the dataset `"MNIST"`
exists. -/
def exGetDatasetResponse : GetDatasetResponse :=
  { id := "id-1"
    «alias» := "mnist"
    default_branch := "main"
    commit_id := "c1"
    created_at := "2022-01-01"
    updated_at := "2022-01-02"
    is_public := false
    config := "cfg" }

/-- The `get_dataset` environment for the C5 witness. -/
def exGetDatasetEnv : GetDatasetRequest → Except PyError GetDatasetResponse :=
  fun req =>
    if req.dataset = "MNIST" then .ok exGetDatasetResponse
    else .error (.resourceNotExist "dataset" req.dataset)

/-- C5: `DatasetManager.get` fails fast on the empty identifier — it
raises `ResourceNotExistError` locally with no transport call issued —
and on a non-empty identifier it issues exactly one `get_dataset` request
(built from the captured credentials, owner, and the identifier) and, on
success, returns the `Dataset` built from the response. -/
theorem datasetManager_get_fail_fast
    (env : GetDatasetRequest → Except PyError GetDatasetResponse)
    (mgr : DatasetManager) :
    (DatasetManager.get env mgr "" =
      (.error (.resourceNotExist "dataset" ""), [])) ∧
    (∀ dataset : String, dataset ≠ "" →
      ((DatasetManager.get env mgr dataset).2 =
        [{ access_key := mgr.access_key, url := mgr.url,
           owner := mgr.owner, dataset := dataset }]) ∧
      (∀ response : GetDatasetResponse,
        env { access_key := mgr.access_key, url := mgr.url,
              owner := mgr.owner, dataset := dataset } = .ok response →
        (DatasetManager.get env mgr dataset).1 =
          .ok (Dataset.from_pyobj
            (response.updateWith mgr.access_key mgr.url mgr.owner dataset)))) := by
  refine ⟨by simp [DatasetManager.get], fun dataset hne => ⟨?_, fun response h => ?_⟩⟩
  · rcases henv : env { access_key := mgr.access_key, url := mgr.url, owner := mgr.owner, dataset := dataset } with e | response <;> simp [DatasetManager.get, hne, henv]
  · simp [DatasetManager.get, hne, h]

/-- Witness for C5: fetching `"MNIST"` through the concrete transport
issues the one expected request and returns the dataset built from the
response. -/
theorem datasetManager_get_witness :
    ((DatasetManager.get exGetDatasetEnv exManager "MNIST").2 =
      [{ access_key := "ACCESSKEY", url := "https://api.graviti.com/",
         owner := "czhual", dataset := "MNIST" }]) ∧
    ((DatasetManager.get exGetDatasetEnv exManager "MNIST").1 =
      .ok (Dataset.from_pyobj (exGetDatasetResponse.updateWith
        "ACCESSKEY" "https://api.graviti.com/" "czhual" "MNIST"))) := by
  have h := (datasetManager_get_fail_fast exGetDatasetEnv exManager).2 "MNIST" (by decide)
  exact ⟨h.1, h.2 exGetDatasetResponse (by rfl)⟩

/-- A concrete draft owned by `exDataset`. -/
def exDraft : Draft :=
  { _dataset := exDataset
    number := 3
    title := "old title"
    branch := "main"
    state := "OPEN"
    parent_commit_id := "c0"
    creator := "czhual"
    created_at := "2022-01-03"
    updated_at := "2022-01-04"
    description := "old description"
    _data := none }

/-- A concrete `update_draft` transport that always succeeds. -/
def exUpdateDraftEnv : UpdateDraftRequest → Except PyError Unit := fun _ => .ok ()

/-- C6: `Draft.edit(title, description)` issues exactly one `update_draft`
call and, on success, writes exactly the non-`None` arguments into the
local `title`/`description`, leaving `number`, `branch`, `state`,
`parent_commit_id`, `creator`, `created_at`, `updated_at` (and the owning
dataset and the cached `_data`) unchanged; `Draft.close()` issues exactly
one `update_draft` call with `state="CLOSED"` and, on success, sets the
local `state` to `"CLOSED"` and leaves every other local field
unchanged. -/
theorem draft_edit_close_frame (env : UpdateDraftRequest → Except PyError Unit)
    (self : Draft) (title description : Option String) :
    ((Draft.edit env self title description).2.2 =
      [{ access_key := self._dataset.access_key, url := self._dataset.url,
         owner := self._dataset.owner, dataset := self._dataset.name,
         draft_number := self.number, title := title,
         description := description, state := none }]) ∧
    (env { access_key := self._dataset.access_key, url := self._dataset.url,
           owner := self._dataset.owner, dataset := self._dataset.name,
           draft_number := self.number, title := title,
           description := description, state := none } = .ok () →
      Draft.edit env self title description =
        ({ self with title := title.getD self.title,
                     description := description.getD self.description },
         .ok (),
         [{ access_key := self._dataset.access_key, url := self._dataset.url,
            owner := self._dataset.owner, dataset := self._dataset.name,
            draft_number := self.number, title := title,
            description := description, state := none }])) ∧
    ((Draft.close env self).2.2 =
      [{ access_key := self._dataset.access_key, url := self._dataset.url,
         owner := self._dataset.owner, dataset := self._dataset.name,
         draft_number := self.number, title := none,
         description := none, state := some "CLOSED" }]) ∧
    (env { access_key := self._dataset.access_key, url := self._dataset.url,
           owner := self._dataset.owner, dataset := self._dataset.name,
           draft_number := self.number, title := none,
           description := none, state := some "CLOSED" } = .ok () →
      Draft.close env self =
        ({ self with state := "CLOSED" },
         .ok (),
         [{ access_key := self._dataset.access_key, url := self._dataset.url,
            owner := self._dataset.owner, dataset := self._dataset.name,
            draft_number := self.number, title := none,
            description := none, state := some "CLOSED" }])) := by
  refine ⟨?_, fun h => ?_, ?_, fun h => ?_⟩
  · rcases henv : env { access_key := self._dataset.access_key, url := self._dataset.url, owner := self._dataset.owner, dataset := self._dataset.name, draft_number := self.number, title := title, description := description, state := none } with e | u <;> simp [Draft.edit, henv]
  · cases title <;> cases description <;> simp [Draft.edit, h]
  · rcases henv : env { access_key := self._dataset.access_key, url := self._dataset.url, owner := self._dataset.owner, dataset := self._dataset.name, draft_number := self.number, title := none, description := none, state := some "CLOSED" } with e | u <;> simp [Draft.close, henv]
  · simp [Draft.close, h]

/-- Witness for C6: on the always-succeeding transport, editing only the
title of the concrete draft changes only its title, and closing it
changes only its state. -/
theorem draft_edit_close_witness :
    (Draft.edit exUpdateDraftEnv exDraft (some "new title") none =
      ({ exDraft with title := "new title" }, .ok (),
       [{ access_key := "ACCESSKEY", url := "https://api.graviti.com/",
          owner := "czhual", dataset := "MNIST", draft_number := 3,
          title := some "new title", description := none, state := none }])) ∧
    (Draft.close exUpdateDraftEnv exDraft =
      ({ exDraft with state := "CLOSED" }, .ok (),
       [{ access_key := "ACCESSKEY", url := "https://api.graviti.com/",
          owner := "czhual", dataset := "MNIST", draft_number := 3,
          title := none, description := none, state := some "CLOSED" }])) := by
  have h := draft_edit_close_frame exUpdateDraftEnv exDraft (some "new title") none
  exact ⟨h.2.1 (by rfl), h.2.2.2 (by rfl)⟩

/-- C7: `DatasetManager.delete(name)` issues exactly one `delete_dataset`
request, built only from the captured `access_key`, `url`, `owner` and the
given `name` (no other state is consulted, no prior `list`/`get` call is
involved), and the method's outcome is the transport call's outcome,
unchanged — in particular any not-found or other transport error
propagates as is. -/
theorem datasetManager_delete_single_call
    (env : DeleteDatasetRequest → Except PyError Unit)
    (mgr : DatasetManager) (name : String) :
    DatasetManager.delete env mgr name =
      (env { access_key := mgr.access_key, url := mgr.url,
             owner := mgr.owner, name := name },
       [{ access_key := mgr.access_key, url := mgr.url,
          owner := mgr.owner, name := name }]) := rfl

/-- The items one `lazyIterate` round at page offset `o` yields: the
fetched page truncated so that no item past position `total_count - 1` of
the collection is produced. -/
def truncatedPage {α : Type} (fetcher : Nat → Nat → List α × Nat) (limit o : Nat) : List α :=
  (fetcher o limit).1.take (min (fetcher o limit).1.length ((fetcher o limit).2 - o))

/-- Unfolding lemma for one round of `lazyIterate` with fuel left. -/
theorem lazyIterate_succ {α : Type} (fetcher : Nat → Nat → List α × Nat)
    (limit fuel offset : Nat) :
    lazyIterate fetcher limit (fuel + 1) offset =
      if (fetcher offset limit).1.length < limit ∨
          (fetcher offset limit).2 ≤ offset +
            min (fetcher offset limit).1.length ((fetcher offset limit).2 - offset) then
        (truncatedPage fetcher limit offset, [offset])
      else
        (truncatedPage fetcher limit offset ++ (lazyIterate fetcher limit fuel (offset + limit)).1,
         offset :: (lazyIterate fetcher limit fuel (offset + limit)).2) := rfl

/-- The page offsets `lazyIterate` requests are consecutive multiples of
`limit` above the starting offset, in ascending request order. -/
theorem lazyIterate_offsets {α : Type} (fetcher : Nat → Nat → List α × Nat) (limit : Nat) :
    ∀ (fuel offset j : Nat), j < (lazyIterate fetcher limit fuel offset).2.length →
      (lazyIterate fetcher limit fuel offset).2[j]? = some (offset + j * limit) := by
  intro fuel
  induction fuel with
  | zero =>
      intro offset j h
      simp only [lazyIterate, List.length_nil] at h
      omega
  | succ n ih =>
      intro offset j h
      rw [lazyIterate_succ] at h ⊢
      split at h <;> rename_i hc
      · rw [if_pos hc]
        simp only [List.length_cons, List.length_nil] at h
        interval_cases j
        simp
      · rw [if_neg hc]
        rcases j with _ | j
        · simp
        · simp only [List.length_cons] at h
          have hj : j < (lazyIterate fetcher limit n (offset + limit)).2.length := by omega
          have hih := ih (offset + limit) j hj
          simp only [List.getElem?_cons_succ, hih, Nat.succ_mul, Option.some.injEq]
          omega

/-- Every page `lazyIterate` requests another page after was a
non-stopping page: it held at least `limit` items and yielding it did not
reach the reported total count. -/
theorem lazyIterate_continues_only_past_full_pages {α : Type}
    (fetcher : Nat → Nat → List α × Nat) (limit : Nat) :
    ∀ (fuel offset j : Nat), j + 1 < (lazyIterate fetcher limit fuel offset).2.length →
      ¬ pageStops fetcher limit (offset + j * limit) := by
  intro fuel
  induction fuel with
  | zero =>
      intro offset j h
      simp only [lazyIterate, List.length_nil] at h
      omega
  | succ n ih =>
      intro offset j h
      rw [lazyIterate_succ] at h
      split at h
      · simp only [List.length_cons, List.length_nil] at h
        omega
      · rename_i hcont
        rcases j with _ | j
        · simpa [pageStops] using hcont
        · simp only [List.length_cons] at h
          have := ih (offset + limit) j (by omega)
          have harith : offset + limit + j * limit = offset + (j + 1) * limit := by
            rw [Nat.succ_mul]; omega
          rwa [harith] at this

/-- The items `lazyIterate` yields are exactly the truncated fetched
pages, concatenated in request order. -/
theorem lazyIterate_content {α : Type} (fetcher : Nat → Nat → List α × Nat) (limit : Nat) :
    ∀ (fuel offset : Nat),
      (lazyIterate fetcher limit fuel offset).1 =
        ((lazyIterate fetcher limit fuel offset).2.map
          (truncatedPage fetcher limit)).flatten := by
  intro fuel
  induction fuel with
  | zero => intro offset; simp [lazyIterate]
  | succ n ih =>
      intro offset
      rw [lazyIterate_succ]
      split
      · simp
      · simp [ih (offset + limit)]

/-- C8: the iteration loop of the lazy paging list (modelled from the
spec, `graviti/manager/lazy.py` not being among the provided sources).
For every fetcher and page size, the items yielded are the fetched pages —
truncated at the reported total count — concatenated in request order; the
requested page offsets are the consecutive multiples of `limit` in
ascending order; and a further page is requested only after a page that
was full (held at least `limit` items) and whose items did not reach the
total count — so iteration stops as soon as either stop condition first
holds, and after a page with fewer than `limit` items no further page is
ever requested. -/
theorem lazyPagingList_iterate_stops {α : Type} (fetcher : Nat → Nat → List α × Nat)
    (limit fuel offset : Nat) :
    ((lazyIterate fetcher limit fuel offset).1 =
      ((lazyIterate fetcher limit fuel offset).2.map
        (truncatedPage fetcher limit)).flatten) ∧
    (∀ j : Nat, j < (lazyIterate fetcher limit fuel offset).2.length →
      (lazyIterate fetcher limit fuel offset).2[j]? = some (offset + j * limit)) ∧
    (∀ j : Nat, j + 1 < (lazyIterate fetcher limit fuel offset).2.length →
      ¬ pageStops fetcher limit (offset + j * limit)) :=
  ⟨lazyIterate_content fetcher limit fuel offset,
   fun j => lazyIterate_offsets fetcher limit fuel offset j,
   fun j => lazyIterate_continues_only_past_full_pages fetcher limit fuel offset j⟩

/-- The spec's five-item scenario as a fetcher: the backing collection is
`[10, 20, 30, 40, 50]`, each page is the slice at the requested offset,
and the reported total count is always 5. -/
def exFetcher : Nat → Nat → List Nat × Nat :=
  fun offset limit => (([10, 20, 30, 40, 50].drop offset).take limit, 5)

/-- Witness for C8: iterating the five-item collection with page size 2
requests pages 0, 2 and 4 and no page beyond the short page at offset 4;
the second requested offset is `0 + 1 * 2`, the first page does not stop
the loop, and the yielded items are the concatenated truncated pages. -/
theorem lazyPagingList_iterate_stops_witness :
    ((lazyIterate exFetcher 2 10 0).2[1]? = some (0 + 1 * 2)) ∧
    (¬ pageStops exFetcher 2 (0 + 0 * 2)) ∧
    ((lazyIterate exFetcher 2 10 0).1 =
      (((lazyIterate exFetcher 2 10 0).2.map (truncatedPage exFetcher 2)).flatten)) :=
  ⟨(lazyPagingList_iterate_stops exFetcher 2 10 0).2.1 1 (by decide),
   (lazyPagingList_iterate_stops exFetcher 2 10 0).2.2 0 (by decide),
   (lazyPagingList_iterate_stops exFetcher 2 10 0).1⟩

/-- C9 (code bug): called with the same positional arguments
`(access_key, url, owner, dataset)`, `get_branch` and `get_tag` do NOT
build request paths sharing the `v2/datasets/{owner}/{dataset}/` prefix:
`get_tag`'s signature declares `dataset` third and `owner` fourth, against
its own docstring and against every sibling helper, so the positional
owner lands in the path's dataset slot and vice versa.  At the concrete
input (owner `"czhual"`, dataset `"MNIST"`, name `"main"`) the branch
request path starts with `v2/datasets/czhual/MNIST/` while the tag request
path is `v2/datasets/MNIST/czhual/tags/main`. -/
theorem get_tag_swaps_owner_and_dataset :
    ((get_branch "ACCESSKEY" "https://api.graviti.com/" "czhual" "MNIST" "main").path =
      "v2/datasets/czhual/MNIST/branches/main") ∧
    ((get_tag "ACCESSKEY" "https://api.graviti.com/" "czhual" "MNIST" "main").path =
      "v2/datasets/MNIST/czhual/tags/main") ∧
    ((get_tag "ACCESSKEY" "https://api.graviti.com/" "czhual" "MNIST" "main").path.take
        ("v2/datasets/czhual/MNIST/".length) ≠
      "v2/datasets/czhual/MNIST/") :=
  ⟨rfl, rfl, by set_option maxRecDepth 8000 in decide⟩

end Graviti
